import Mathlib

/-!
Verification of the calibration core of `pgen_client`.

The colorimetric code operates on `f64`; it is embedded here over `ℝ`, with
Rust's `powf`, `ln`, `sqrt` and `round` mapped to `Real.rpow`, `Real.log`,
`Real.sqrt` and round-half-away-from-zero respectively.  The subprocess
driver (`src/spotread.rs`) is embedded as a pure step function over scripts
of stdout chunks.
-/

namespace PgenClient

noncomputable section

open Real

open scoped Classical

/-- Triple of real numbers, modelling `kolor_64::Vec3` (three `f64`). -/
structure V3 where
  x : ℝ
  y : ℝ
  z : ℝ

/-- Rust `f64::round`: round half away from zero, as an integer-valued real. -/
def fround (x : ℝ) : ℝ :=
  if 0 ≤ x then ((⌊x + 1/2⌋ : ℤ) : ℝ) else -((⌊-x + 1/2⌋ : ℤ) : ℝ)

/-- From `src/utils.rs`: `round_colour`, `(rgb * 1e6).round() / 1e6` componentwise. -/
def round_colour (v : V3) : V3 :=
  ⟨fround (v.x * 1e6) / 1e6, fround (v.y * 1e6) / 1e6, fround (v.z * 1e6) / 1e6⟩

/-- From `src/calibration/luminance_eotf.rs`: the EOTF kind enum. -/
inductive LuminanceEotf where
  | Gamma22
  | Gamma24
  | PQ
deriving DecidableEq

namespace LuminanceEotf

/-- Constant `GAMMA_2_2` from the source. -/
def GAMMA_2_2 : ℝ := 2.2

/-- Constant `GAMMA_2_2_INV = 1.0 / 2.2` from the source. -/
def GAMMA_2_2_INV : ℝ := 1 / GAMMA_2_2

/-- Constant `GAMMA_2_4` from the source. -/
def GAMMA_2_4 : ℝ := 2.4

/-- Constant `GAMMA_2_4_INV = 1.0 / 2.4` from the source. -/
def GAMMA_2_4_INV : ℝ := 1 / GAMMA_2_4

/-- Constant `ST2084_M1 = 2610/16384`. -/
def ST2084_M1 : ℝ := 2610 / 16384

/-- Constant `ST2084_M2 = (2523/4096) * 128`. -/
def ST2084_M2 : ℝ := (2523 / 4096) * 128

/-- Constant `ST2084_C1 = 3424/4096`. -/
def ST2084_C1 : ℝ := 3424 / 4096

/-- Constant `ST2084_C2 = (2413/4096) * 32`. -/
def ST2084_C2 : ℝ := (2413 / 4096) * 32

/-- Constant `ST2084_C3 = (2392/4096) * 32`. -/
def ST2084_C3 : ℝ := (2392 / 4096) * 32

/-- From the source: `pq_to_linear`.  The Rust code computes
`(ST2084_C2 - ST2084_C3 * xpow).max(f64::NEG_INFINITY)`; `max` with negative
infinity is the identity on reals, so the embedding drops it. -/
def pq_to_linear (x : ℝ) : ℝ :=
  if 0 < x then
    let xpow := x ^ (1 / ST2084_M2)
    let num := max (xpow - ST2084_C1) 0
    let den := ST2084_C2 - ST2084_C3 * xpow
    (num / den) ^ (1 / ST2084_M1)
  else 0

/-- From the source: `linear_to_pq`. -/
def linear_to_pq (v : ℝ) : ℝ :=
  let num := ST2084_C1 + ST2084_C2 * v ^ ST2084_M1
  let denom := 1 + ST2084_C3 * v ^ ST2084_M1
  (num / denom) ^ ST2084_M2

/-- From the source: `eotf` (decode). -/
def eotf : LuminanceEotf → ℝ → ℝ
  | Gamma22, v => v ^ GAMMA_2_2
  | Gamma24, v => v ^ GAMMA_2_4
  | PQ, v => pq_to_linear v

/-- From the source: `oetf` (encode). -/
def oetf : LuminanceEotf → ℝ → ℝ
  | Gamma22, v => v ^ GAMMA_2_2_INV
  | Gamma24, v => v ^ GAMMA_2_4_INV
  | PQ, v => linear_to_pq v

/-- From the source: `value`, dispatching on the direction flag. -/
def value (e : LuminanceEotf) (v : ℝ) (o : Bool) : ℝ :=
  if o then e.oetf v else e.eotf v

/-- From the source: `eotf_bpc`. -/
def eotf_bpc (e : LuminanceEotf) (min v : ℝ) : ℝ :=
  let m := 1 - min
  let v' := max ((v - min) / m) 0
  e.eotf v' * m + min

/-- From the source: `oetf_bpc`. -/
def oetf_bpc (e : LuminanceEotf) (min v : ℝ) : ℝ :=
  let m := 1 - min
  e.oetf v * m + min

/-- From the source: `value_bpc`; for PQ the min is forced to 0, otherwise a
non-linear min is first decoded (sic: via `oetf`). -/
def value_bpc (e : LuminanceEotf) (min v : ℝ) (o linear_min : Bool) : ℝ :=
  let m := if e = PQ then 0 else if linear_min then min else e.oetf min
  if o then e.oetf_bpc m v else e.eotf_bpc m v

/-- From the source: `mean`, nominal mean gamma per kind. -/
def mean : LuminanceEotf → ℝ
  | Gamma22 => GAMMA_2_2
  | Gamma24 => GAMMA_2_4
  | PQ => 5

/-- From the source: the static empirical-gamma estimate
`((v_out.ln() - 1e-7) / (v_in.ln() - 1e-7))`, rounded to 3 decimals. -/
def gamma (v_in v_out : ℝ) : ℝ :=
  let g := (Real.log v_out - 1e-7) / (Real.log v_in - 1e-7)
  fround (g * 1e3) / 1e3

end LuminanceEotf

/-!
Correlated colour temperature, from `src/calibration/cct.rs` (Robertson
method, port of Bruce Lindbloom's `XYZtoCorColorTemp.c`).
-/

/-- Rust `f64::MIN`, the least finite `f64`, used as `RECIPROCAL_TEMP[0]`. -/
def F64_MIN : ℝ := -((2:ℝ) ^ (1024:ℕ) - (2:ℝ) ^ (971:ℕ))

/-- Table `RECIPROCAL_TEMP` from the source (reciprocal temperatures, 31 rows;
out-of-range indices are unreachable in the source and map to 0 here). -/
def RECIPROCAL_TEMP : ℕ → ℝ
  | 0 => F64_MIN
  | 1 => 10.0e-6
  | 2 => 20.0e-6
  | 3 => 30.0e-6
  | 4 => 40.0e-6
  | 5 => 50.0e-6
  | 6 => 60.0e-6
  | 7 => 70.0e-6
  | 8 => 80.0e-6
  | 9 => 90.0e-6
  | 10 => 100.0e-6
  | 11 => 125.0e-6
  | 12 => 150.0e-6
  | 13 => 175.0e-6
  | 14 => 200.0e-6
  | 15 => 225.0e-6
  | 16 => 250.0e-6
  | 17 => 275.0e-6
  | 18 => 300.0e-6
  | 19 => 325.0e-6
  | 20 => 350.0e-6
  | 21 => 375.0e-6
  | 22 => 400.0e-6
  | 23 => 425.0e-6
  | 24 => 450.0e-6
  | 25 => 475.0e-6
  | 26 => 500.0e-6
  | 27 => 525.0e-6
  | 28 => 550.0e-6
  | 29 => 575.0e-6
  | 30 => 600.0e-6
  | _ => 0

/-- Column `x` (u coordinate) of the `UVT` table from the source. -/
def uvtU : ℕ → ℝ
  | 0 => 0.18006
  | 1 => 0.18066
  | 2 => 0.18133
  | 3 => 0.18208
  | 4 => 0.18293
  | 5 => 0.18388
  | 6 => 0.18494
  | 7 => 0.18611
  | 8 => 0.18740
  | 9 => 0.18880
  | 10 => 0.19032
  | 11 => 0.19462
  | 12 => 0.19962
  | 13 => 0.20525
  | 14 => 0.21142
  | 15 => 0.21807
  | 16 => 0.22511
  | 17 => 0.23247
  | 18 => 0.24010
  | 19 => 0.24792
  | 20 => 0.25591
  | 21 => 0.26400
  | 22 => 0.27218
  | 23 => 0.28039
  | 24 => 0.28863
  | 25 => 0.29685
  | 26 => 0.30505
  | 27 => 0.31320
  | 28 => 0.32129
  | 29 => 0.32931
  | 30 => 0.33724
  | _ => 0

/-- Column `y` (v coordinate) of the `UVT` table from the source. -/
def uvtV : ℕ → ℝ
  | 0 => 0.26352
  | 1 => 0.26589
  | 2 => 0.26846
  | 3 => 0.27119
  | 4 => 0.27407
  | 5 => 0.27709
  | 6 => 0.28021
  | 7 => 0.28342
  | 8 => 0.28668
  | 9 => 0.28997
  | 10 => 0.29326
  | 11 => 0.30141
  | 12 => 0.30921
  | 13 => 0.31647
  | 14 => 0.32312
  | 15 => 0.32909
  | 16 => 0.33439
  | 17 => 0.33904
  | 18 => 0.34308
  | 19 => 0.34655
  | 20 => 0.34951
  | 21 => 0.35200
  | 22 => 0.35407
  | 23 => 0.35577
  | 24 => 0.35714
  | 25 => 0.35823
  | 26 => 0.35907
  | 27 => 0.35968
  | 28 => 0.36011
  | 29 => 0.36038
  | 30 => 0.36051
  | _ => 0

/-- Column `z` (slope) of the `UVT` table from the source, including the
documented literature correction `0.24792` at row 19. -/
def uvtT : ℕ → ℝ
  | 0 => -0.24341
  | 1 => -0.25479
  | 2 => -0.26876
  | 3 => -0.28539
  | 4 => -0.30470
  | 5 => -0.32675
  | 6 => -0.35156
  | 7 => -0.37915
  | 8 => -0.40955
  | 9 => -0.44278
  | 10 => -0.47888
  | 11 => -0.58204
  | 12 => -0.70471
  | 13 => -0.84901
  | 14 => -1.0182
  | 15 => -1.2168
  | 16 => -1.4512
  | 17 => -1.7298
  | 18 => -2.0637
  | 19 => -2.4681
  | 20 => -2.9641
  | 21 => -3.5814
  | 22 => -4.3633
  | 23 => -5.3762
  | 24 => -6.7262
  | 25 => -8.5955
  | 26 => -11.324
  | 27 => -15.628
  | 28 => -23.325
  | 29 => -40.770
  | 30 => -116.45
  | _ => 0

/-- From the source: `lerp(v, rhs, t) = v + (rhs - v) * t`. -/
def lerp (v rhs t : ℝ) : ℝ := v + (rhs - v) * t

/-- Search loop of `xyz_to_cct`: iterate rows `i` of the `UVT` table carrying
the previous distance `dm`, stopping at the first sign flip (the source's
`for _ in 0..31` with `break`).  The fuel argument counts the remaining
iterations; it starts at 31, so fuel 0 corresponds to `i == 31` (no flip,
bad XYZ input). -/
def cctLoop (us vs : ℝ) : ℕ → ℕ → ℝ → Option (ℕ × ℝ × ℝ)
  | 0, _, _ => none
  | fuel + 1, i, dm =>
    if 0 < i ∧ ((vs - uvtV i - uvtT i * (us - uvtU i) < 0 ∧ 0 ≤ dm) ∨
        (0 ≤ vs - uvtV i - uvtT i * (us - uvtU i) ∧ dm < 0)) then
      some (i, dm, vs - uvtV i - uvtT i * (us - uvtU i))
    else cctLoop us vs fuel (i + 1) (vs - uvtV i - uvtT i * (us - uvtU i))

/-- From the source: `xyz_to_cct`.  Returns `none` when all components are
below the near-zero threshold or when no sign flip occurs over the table. -/
def xyz_to_cct (xyz : V3) : Option ℝ :=
  if xyz.x < 1.0e-20 ∧ xyz.y < 1.0e-20 ∧ xyz.z < 1.0e-20 then none
  else
    let us := (4 * xyz.x) / (xyz.x + 15 * xyz.y + 3 * xyz.z)
    let vs := (6 * xyz.y) / (xyz.x + 15 * xyz.y + 3 * xyz.z)
    (cctLoop us vs 31 0 0).map fun r =>
      let i := r.1
      let dm := r.2.1
      let di := r.2.2
      let di' := di / Real.sqrt (1 + uvtT i * uvtT i)
      let dm' := dm / Real.sqrt (1 + uvtT (i - 1) * uvtT (i - 1))
      let p := dm' / (dm' - di')
      1 / lerp (RECIPROCAL_TEMP (i - 1)) (RECIPROCAL_TEMP i) p

/-- Modelled from the spec: the external `kolor_64` conversion `xyY_to_XYZ`
used by the D65 regression test (`X = x·Y/y`, `Z = (1-x-y)·Y/y`); the crate
is an external dependency, not part of the snapshot. -/
def xyY_to_XYZ (x y Y : ℝ) : V3 :=
  ⟨x * Y / y, Y, (1 - x - y) * Y / y⟩

/-!
Measurement-result model, from `src/calibration/reading_result.rs` and
`src/calibration/mod.rs`.
-/

/-- From `src/calibration/mod.rs`: the target colourspace enum. -/
inductive TargetColorspace where
  | Rec709
  | DisplayP3
  | Rec2020
deriving DecidableEq

/-- Modelled from the spec: `CalibrationTarget` is referenced by
`reading_result.rs` and constructed in `app/pgen_app.rs` but its definition
is absent from the snapshot's calibration module; the fields follow spec §3
and the construction sites (`min_y`, `max_y`, `max_hdr_mdl`, `colorspace`,
`eotf`, linear `ref_rgb`). -/
structure CalibrationTarget where
  min_y : ℝ
  max_y : ℝ
  max_hdr_mdl : ℝ
  colorspace : TargetColorspace
  eotf : LuminanceEotf
  ref_rgb : V3

/-- From `src/calibration/reading_result.rs`: a reading with its raw
tristimulus sample and the derived quantities. -/
structure ReadingResult where
  target : CalibrationTarget
  xyz : V3
  argyll_lab : V3
  xyy : V3
  lab : V3
  cct : ℝ
  rgb : V3

/-- Componentwise scaling of a `Vec3` by `1/s` (Rust `self.xyz / scalar`). -/
def V3.divScalar (v : V3) (s : ℝ) : V3 :=
  ⟨v.x / s, v.y / s, v.z / s⟩

namespace ReadingResult

/-- From the source: `set_or_update_calculated_values`, the single entrypoint
recomputing all derived fields together.  The external `kolor_64` transforms
(`XYZ_to_xyY` at D65, `XYZ_to_CIELAB` at D65, and the XYZ→RGB conversion for
the target colourspace) are dependencies of the crate, not code of this
snapshot, so they are taken as parameters. -/
def set_or_update_calculated_values (xyYD65 labD65 : V3 → V3)
    (conv : TargetColorspace → V3 → V3) (r : ReadingResult) : ReadingResult :=
  { r with
    xyy := round_colour (xyYD65 r.xyz)
    lab := round_colour (labD65 (r.xyz.divScalar r.target.max_y))
    cct := (xyz_to_cct r.xyz).getD 0
    rgb := round_colour (conv r.target.colorspace r.xyz) }

/-- From the source: `from_argyll_results`, constructing a result with
defaulted derived fields and then calling the single recompute entrypoint. -/
def from_argyll_results (xyYD65 labD65 : V3 → V3) (conv : TargetColorspace → V3 → V3)
    (target : CalibrationTarget) (xyz argyll_lab : V3) : ReadingResult :=
  set_or_update_calculated_values xyYD65 labD65 conv
    { target := target
      xyz := xyz
      argyll_lab := argyll_lab
      xyy := ⟨0, 0, 0⟩
      lab := ⟨0, 0, 0⟩
      cct := 0
      rgb := ⟨0, 0, 0⟩ }

/-- From the source: `target_min_normalized = min_y / max_y`. -/
def target_min_normalized (r : ReadingResult) : ℝ :=
  r.target.min_y / r.target.max_y

/-- From the source: `luminance(oetf)`.  For PQ the pair `(min_y, max_y)` is
`(0, max_hdr_mdl)`; the measured Y (`xyy[2]`) is divided by `max_y`; the
`oetf` branch applies `target_eotf.oetf` to `target_eotf.value(y, true)`. -/
def luminance (r : ReadingResult) (oetf : Bool) : ℝ :=
  let target_eotf := r.target.eotf
  let pair := if target_eotf = LuminanceEotf.PQ then ((0:ℝ), r.target.max_hdr_mdl)
    else (r.target.min_y, r.target.max_y)
  let min_y := pair.1
  let max_y := pair.2
  let y := r.xyy.z / max_y
  if oetf then
    target_eotf.oetf (target_eotf.value y true)
  else
    let m := target_eotf.oetf (min_y / max_y)
    let mx := 1 - m
    y * mx + m

/-- From the source: `ref_rgb_linear_bpc`, black-point compensation applied
to the target reference RGB in linear space. -/
def ref_rgb_linear_bpc (r : ReadingResult) : V3 :=
  let m := r.target.eotf.oetf r.target_min_normalized
  let mx := 1 - m
  ⟨r.target.ref_rgb.x * mx + m, r.target.ref_rgb.y * mx + m, r.target.ref_rgb.z * mx + m⟩

/-- From the source: `is_white_stimulus_reading` — every component of
`ref_rgb` equals the red component (`iter().all(|e| *e == ref_red)`). -/
def is_white_stimulus_reading (r : ReadingResult) : Prop :=
  ∀ c ∈ [r.target.ref_rgb.x, r.target.ref_rgb.y, r.target.ref_rgb.z], c = r.target.ref_rgb.x

/-- From the source: `not_zero_or_one_rgb` — Rust `(0.01..1.0).contains(&x)`,
a half-open range including its lower endpoint. -/
def not_zero_or_one_rgb (r : ReadingResult) : Prop :=
  0.01 ≤ r.target.ref_rgb.x ∧ r.target.ref_rgb.x < 1

/-- From the source: `gamma()`, defined only for white-stimulus readings
whose stimulus lies in the `0.01..1.0` range. -/
def gamma (r : ReadingResult) : Option ℝ :=
  if r.is_white_stimulus_reading ∧ r.not_zero_or_one_rgb then
    some (LuminanceEotf.gamma r.ref_rgb_linear_bpc.x (r.luminance false))
  else none

/-- From the source: `results_average_gamma` — sums `gamma()` over the
readings where it is defined (`filter_map`) and divides by the length of the
whole slice, wrapped in `Some`. -/
def results_average_gamma (results : List ReadingResult) : Option ℝ :=
  some ((results.filterMap gamma).sum / results.length)

end ReadingResult

/-!
Bit-level model of `f64` equality for `is_white_stimulus_reading` (claim C8
is about bit patterns, which the real-number embedding cannot express). -/

/-- Minimal bit-level model of an `f64`: an ordinary finite value (`num q`,
with `num 0` the positive zero), the negative zero, or a NaN.  Distinct
constructors have distinct bit patterns; `num 0` and `negZero` are
numerically equal but differ bitwise. -/
inductive F64 where
  | num : ℚ → F64
  | negZero : F64
  | nan : F64
deriving DecidableEq

/-- IEEE-754 `==` on the `F64` model: NaN compares unequal to everything,
`-0.0 == 0.0`, finite values compare by numeric value. -/
def f64Eq : F64 → F64 → Bool
  | F64.num a, F64.num b => a == b
  | F64.num a, F64.negZero => a == 0
  | F64.negZero, F64.num b => b == 0
  | F64.negZero, F64.negZero => true
  | _, _ => false

/-- Numeric value of an `F64` when it has one (NaN has none). -/
def f64Val : F64 → Option ℚ
  | F64.num a => some a
  | F64.negZero => some 0
  | F64.nan => none

/-- Bit-level `is_white_stimulus_reading` over `F64` components, mirroring
the source comparison `iter().all(|e| *e == ref_red)` (IEEE `==`, which
includes the vacuous `red == red` test). -/
def is_white_stimulus_f64 (r g b : F64) : Bool :=
  f64Eq r r && f64Eq g r && f64Eq b r

/-- Predicate: every component of the triple is an integer multiple of
`1e-6` (the image of `round_colour`). -/
def isMicroRounded (v : V3) : Prop :=
  (∃ n : ℤ, v.x = n / 1e6) ∧ (∃ n : ℤ, v.y = n / 1e6) ∧ (∃ n : ℤ, v.z = n / 1e6)

/-!
Subprocess driver model, from `src/spotread.rs`.  The async I/O is embedded
as pure functions over scripts of stdout chunks: each call of
`read_stdout_lines` consumes the next entry of the script (`none` models a
zero-byte read).  Line matching uses the same `starts_with` / `contains`
tests as the source.  Parsing of a result line (`ReadingResult::new`) is a
separate component and is taken as a parameter `mk`. -/

/-- Rust `str::starts_with` on the character level. -/
def strStartsWith (s pat : String) : Bool :=
  pat.toList.isPrefixOf s.toList

/-- Rust `str::contains` on the character level: some suffix of `s` begins
with `pat`. -/
def strContains (s pat : String) : Bool :=
  (List.range (s.toList.length + 1)).any fun i => pat.toList.isPrefixOf (s.toList.drop i)

/-- Events sent to collaborators: `PGenAppUpdate::SpotreadStarted`,
`PGenAppUpdate::SpotreadRes` (payload type `ρ` abstracts the parsed
reading), and `ExternalJobCmd::SpotreadDoneMeasuring`. -/
inductive SpotreadEvent (ρ : Type) where
  | spotreadStarted (ok : Bool)
  | spotreadRes (r : Option ρ)
  | spotreadDoneMeasuring
deriving DecidableEq

/-- Result of one `try_measure` call: newline triggers written to stdin,
events emitted, the updated `can_take_reading` flag, and whether the call
returned `Ok(())`. -/
structure MeasureOutcome (ρ : Type) where
  writes : ℕ
  events : List (SpotreadEvent ρ)
  canTake : Bool
  ok : Bool
deriving DecidableEq

/-- Line-processing loop of `try_measure`: emits a result event for each
`"Result is XYZ:"` line (aborting like the `?` operator when `mk` fails),
records the last `"Spot read failed"` line, and re-arms `can_take_reading`
on a ready-prompt line.  Returns (events, flag, failure line, parse ok). -/
def tryMeasureLines (mk : String → Option ρ) :
    List String → Bool → Option String → List (SpotreadEvent ρ) × Bool × Option String × Bool
  | [], ct, err => ([], ct, err, true)
  | line :: rest, ct, err =>
    if strStartsWith line "Result is XYZ:" then
      match mk line with
      | some r =>
        let out := tryMeasureLines mk rest ct err
        (SpotreadEvent.spotreadRes (some r) :: out.1, out.2)
      | none => ([], ct, err, false)
    else if strStartsWith line "Spot read failed" then
      tryMeasureLines mk rest ct (some line)
    else if strContains line "take a reading" then
      tryMeasureLines mk rest true err
    else
      tryMeasureLines mk rest ct err

/-- From the source: `try_measure`.  When `can_take_reading` is set, the
trigger newline is written at once (read index 0 is then the result read);
otherwise one stdout read is flushed first and the newline is written only
if some line of that chunk contains `"take a reading"`.  The flag is false
in either case before the result read, and the call is `Ok` exactly when
parsing succeeded and no failure line appeared. -/
def try_measure (mk : String → Option ρ) (ct0 : Bool)
    (reads : List (Option (List String))) : MeasureOutcome ρ :=
  let sync : ℕ × ℕ :=
    if ct0 then (1, 0)
    else
      match (reads.get? 0).join with
      | some lines => (if lines.any (fun l => strContains l "take a reading") then 1 else 0, 1)
      | none => (0, 1)
  match (reads.get? sync.2).join with
  | none => ⟨sync.1, [], false, true⟩
  | some lines =>
    let out := tryMeasureLines mk lines false none
    ⟨sync.1, out.1, out.2.1, out.2.2.2 && out.2.2.1.isNone⟩

/-- From the source: the measurement timeout in seconds,
`tokio::time::timeout(Duration::from_secs(20), ...)`. -/
def MEASURE_TIMEOUT_SECS : ℕ := 20

/-- State of the spawned worker loop: the sticky ready flag and whether the
subprocess (and its loop) is still alive. -/
structure WorkerState where
  canTake : Bool
  alive : Bool
deriving DecidableEq

/-- One iteration of the worker loop selects either a stderr line or a
command.  A `DoReading` either runs `try_measure` to completion on a stdout
script, or hits the 20-second timeout — in which case the in-flight future
is dropped and the environment determines where the flag was left. -/
inductive MeasureAttempt where
  | runs (reads : List (Option (List String)))
  | timesOut (ctAfter : Bool)

/-- Input to one iteration of the worker loop. -/
inductive WorkerInput where
  | errLine (line : Option String)
  | doReading (att : MeasureAttempt)
  | exitCmd

/-- From the source: one iteration of the spawned worker loop.  A
`"Diagnostic"` stderr line or an exit command tears the process down and
emits `SpotreadStarted(false)`; a completed measurement emits the events of
`try_measure` plus an empty result when it failed; a timed-out measurement
emits only the empty result; every measurement ends with
`SpotreadDoneMeasuring`. -/
def workerStep (mk : String → Option ρ) (st : WorkerState) :
    WorkerInput → WorkerState × List (SpotreadEvent ρ)
  | WorkerInput.errLine l =>
    match l with
    | some line =>
      if strStartsWith line "Diagnostic" then
        (⟨st.canTake, false⟩, [SpotreadEvent.spotreadStarted false])
      else (st, [])
    | none => (st, [])
  | WorkerInput.doReading (MeasureAttempt.runs reads) =>
    let out := try_measure mk st.canTake reads
    (⟨out.canTake, st.alive⟩,
      out.events ++ (if out.ok then [] else [SpotreadEvent.spotreadRes none]) ++
        [SpotreadEvent.spotreadDoneMeasuring])
  | WorkerInput.doReading (MeasureAttempt.timesOut ct') =>
    (⟨ct', st.alive⟩,
      [SpotreadEvent.spotreadRes none, SpotreadEvent.spotreadDoneMeasuring])
  | WorkerInput.exitCmd =>
    (⟨st.canTake, false⟩, [SpotreadEvent.spotreadStarted false])

/-- One unfolding of the `cctLoop` recursion. -/
lemma cctLoop_step (us vs : ℝ) (fuel i : ℕ) (dm : ℝ) :
    cctLoop us vs (fuel + 1) i dm =
      if 0 < i ∧ ((vs - uvtV i - uvtT i * (us - uvtU i) < 0 ∧ 0 ≤ dm) ∨
          (0 ≤ vs - uvtV i - uvtT i * (us - uvtU i) ∧ dm < 0)) then
        some (i, dm, vs - uvtV i - uvtT i * (us - uvtU i))
      else cctLoop us vs fuel (i + 1) (vs - uvtV i - uvtT i * (us - uvtU i)) := rfl

/-- Evaluation of the Robertson search on the D65 white point: the sign of
the perpendicular distance first flips at row 13, with the bracketing
distances `dm` (row 12) and `di` (row 13) as exact rationals. -/
lemma cctLoop_d65 :
    cctLoop (6254/31613) (9870/31613) 31 0 0
      = some (13, 275334014737/158065000000000, -(133486759973/12645200000000)) := by
  rw [show (31:ℕ) = 30+1 from rfl, cctLoop_step, if_neg (by norm_num [uvtU, uvtV, uvtT])]
  rw [show (30:ℕ) = 29+1 from rfl, cctLoop_step, if_neg (by norm_num [uvtU, uvtV, uvtT])]
  rw [show (29:ℕ) = 28+1 from rfl, cctLoop_step, if_neg (by norm_num [uvtU, uvtV, uvtT])]
  rw [show (28:ℕ) = 27+1 from rfl, cctLoop_step, if_neg (by norm_num [uvtU, uvtV, uvtT])]
  rw [show (27:ℕ) = 26+1 from rfl, cctLoop_step, if_neg (by norm_num [uvtU, uvtV, uvtT])]
  rw [show (26:ℕ) = 25+1 from rfl, cctLoop_step, if_neg (by norm_num [uvtU, uvtV, uvtT])]
  rw [show (25:ℕ) = 24+1 from rfl, cctLoop_step, if_neg (by norm_num [uvtU, uvtV, uvtT])]
  rw [show (24:ℕ) = 23+1 from rfl, cctLoop_step, if_neg (by norm_num [uvtU, uvtV, uvtT])]
  rw [show (23:ℕ) = 22+1 from rfl, cctLoop_step, if_neg (by norm_num [uvtU, uvtV, uvtT])]
  rw [show (22:ℕ) = 21+1 from rfl, cctLoop_step, if_neg (by norm_num [uvtU, uvtV, uvtT])]
  rw [show (21:ℕ) = 20+1 from rfl, cctLoop_step, if_neg (by norm_num [uvtU, uvtV, uvtT])]
  rw [show (20:ℕ) = 19+1 from rfl, cctLoop_step, if_neg (by norm_num [uvtU, uvtV, uvtT])]
  rw [show (19:ℕ) = 18+1 from rfl, cctLoop_step, if_neg (by norm_num [uvtU, uvtV, uvtT])]
  rw [show (18:ℕ) = 17+1 from rfl, cctLoop_step, if_pos (by norm_num [uvtU, uvtV, uvtT])]
  norm_num [uvtU, uvtV, uvtT, Prod.ext_iff]

set_option maxHeartbeats 1600000 in
/-- C1: the correlated-colour-temperature estimator applied to the D65 white
point (`xyY = (0.3127, 0.3290, 1.0)` converted to XYZ) yields approximately
6503.707 K (within 0.01 K), and it returns `None` whenever all three XYZ
components are below the near-zero threshold `1e-20`. -/
theorem xyz_to_cct_d65_and_near_zero :
    (∃ c, xyz_to_cct (xyY_to_XYZ 0.3127 0.329 1) = some c ∧ |c - 6503.707| < 0.01) ∧
      ∀ v : V3, v.x < 1.0e-20 → v.y < 1.0e-20 → v.z < 1.0e-20 → xyz_to_cct v = none := by
  constructor
  · have hus : (4 * ((0.3127:ℝ) * 1 / 0.329)) /
        (0.3127 * 1 / 0.329 + 15 * 1 + 3 * ((1 - 0.3127 - 0.329) * 1 / 0.329))
          = 6254/31613 := by norm_num
    have hvs : (6 * (1:ℝ)) /
        (0.3127 * 1 / 0.329 + 15 * 1 + 3 * ((1 - 0.3127 - 0.329) * 1 / 0.329))
          = 9870/31613 := by norm_num
    have hEq : xyz_to_cct (xyY_to_XYZ 0.3127 0.329 1)
        = some (1 / lerp (150.0e-6) (175.0e-6)
            ((275334014737 / 158065000000000 / Real.sqrt (1 + -0.70471 * -0.70471)) /
              (275334014737 / 158065000000000 / Real.sqrt (1 + -0.70471 * -0.70471) -
                -(133486759973 / 12645200000000) / Real.sqrt (1 + -0.84901 * -0.84901)))) := by
      simp only [xyz_to_cct, xyY_to_XYZ]
      rw [if_neg (by norm_num), hus, hvs, cctLoop_d65, Option.map_some']
      rw [show ((13:ℕ) - 1) = 12 from rfl]
      simp only [uvtT, RECIPROCAL_TEMP]
    rw [hEq]
    set s : ℝ := Real.sqrt (1 + -0.70471 * -0.70471) with hs_def
    set t : ℝ := Real.sqrt (1 + -0.84901 * -0.84901) with ht_def
    have hs_sq : s ^ 2 = 1 + -0.70471 * -0.70471 := Real.sq_sqrt (by norm_num)
    have ht_sq : t ^ 2 = 1 + -0.84901 * -0.84901 := Real.sq_sqrt (by norm_num)
    have hs_nn : 0 ≤ s := Real.sqrt_nonneg _
    have ht_nn : 0 ≤ t := Real.sqrt_nonneg _
    have hs_lo : (1.2233626:ℝ) ≤ s := by nlinarith [sq_nonneg (s - 1.2233626)]
    have hs_hi : s ≤ 1.2233627 := by nlinarith [sq_nonneg (s - 1.2233627)]
    have ht_lo : (1.3117995:ℝ) ≤ t := by nlinarith [sq_nonneg (t - 1.3117995)]
    have ht_hi : t ≤ 1.3117996 := by nlinarith [sq_nonneg (t - 1.3117996)]
    have hs_pos : (0:ℝ) < s := lt_of_lt_of_le (by norm_num) hs_lo
    have ht_pos : (0:ℝ) < t := lt_of_lt_of_le (by norm_num) ht_lo
    have hsub : (275334014737 / 158065000000000 : ℝ) / s -
        -(133486759973 / 12645200000000 : ℝ) / t
          = 275334014737 / 158065000000000 / s + 133486759973 / 12645200000000 / t := by
      ring
    rw [hsub]
    have ha_lo : (275334014737 / 158065000000000 : ℝ) / 1.2233627
        ≤ 275334014737 / 158065000000000 / s :=
      div_le_div_of_nonneg_left (by norm_num) hs_pos hs_hi
    have ha_hi : (275334014737 / 158065000000000 : ℝ) / s
        ≤ 275334014737 / 158065000000000 / 1.2233626 :=
      div_le_div_of_nonneg_left (by norm_num) (by norm_num) hs_lo
    have hc_lo : (133486759973 / 12645200000000 : ℝ) / 1.3117996
        ≤ 133486759973 / 12645200000000 / t :=
      div_le_div_of_nonneg_left (by norm_num) ht_pos ht_hi
    have hc_hi : (133486759973 / 12645200000000 : ℝ) / t
        ≤ 133486759973 / 12645200000000 / 1.3117995 :=
      div_le_div_of_nonneg_left (by norm_num) (by norm_num) ht_lo
    have ha_pos : (0:ℝ) < 275334014737 / 158065000000000 / s := by positivity
    have hc_pos : (0:ℝ) < 133486759973 / 12645200000000 / t := by positivity
    have hden_pos : (0:ℝ) < 275334014737 / 158065000000000 / s
        + 133486759973 / 12645200000000 / t := by linarith
    have hp_hi : (275334014737 / 158065000000000 / s) /
        (275334014737 / 158065000000000 / s + 133486759973 / 12645200000000 / t)
          ≤ 150343/1000000 := by
      rw [div_le_iff₀ hden_pos]
      have h1 : (1 - 150343/1000000 : ℝ) * (275334014737 / 158065000000000 / 1.2233626)
          ≤ (150343/1000000 : ℝ) * (133486759973 / 12645200000000 / 1.3117996) := by
        norm_num
      nlinarith [ha_hi, hc_lo]
    have hp_lo : (150334/1000000 : ℝ)
        ≤ (275334014737 / 158065000000000 / s) /
          (275334014737 / 158065000000000 / s + 133486759973 / 12645200000000 / t) := by
      rw [le_div_iff₀ hden_pos]
      have h1 : (150334/1000000 : ℝ) * (133486759973 / 12645200000000 / 1.3117995)
          ≤ (1 - 150334/1000000 : ℝ) * (275334014737 / 158065000000000 / 1.2233627) := by
        norm_num
      nlinarith [ha_lo, hc_hi]
    refine ⟨_, rfl, ?_⟩
    set p : ℝ := (275334014737 / 158065000000000 / s) /
        (275334014737 / 158065000000000 / s + 133486759973 / 12645200000000 / t) with hp_def
    have hD_lo : (3075167/20000000000 : ℝ) ≤ lerp (150.0e-6) (175.0e-6) p := by
      simp only [lerp]
      linarith [hp_lo]
    have hD_hi : lerp (150.0e-6) (175.0e-6) p ≤ (6150343/40000000000 : ℝ) := by
      simp only [lerp]
      linarith [hp_hi]
    have hD_pos : (0:ℝ) < lerp (150.0e-6) (175.0e-6) p := by linarith
    have hinv_hi : 1 / lerp (150.0e-6) (175.0e-6) p ≤ 1 / (3075167/20000000000 : ℝ) :=
      one_div_le_one_div_of_le (by norm_num) hD_lo
    have hinv_lo : 1 / (6150343/40000000000 : ℝ) ≤ 1 / lerp (150.0e-6) (175.0e-6) p :=
      one_div_le_one_div_of_le hD_pos hD_hi
    rw [abs_lt]
    constructor
    · have h2 : (6503.697 : ℝ) < 1 / (6150343/40000000000 : ℝ) := by norm_num
      linarith
    · have h2 : (1 : ℝ) / (3075167/20000000000 : ℝ) < 6503.717 := by norm_num
      linarith
  · intro v hx hy hz
    simp only [xyz_to_cct]
    rw [if_pos ⟨hx, hy, hz⟩]

/-- Witness for C1: the near-zero branch applied at the concrete input
`XYZ = (0, 0, 0)`. -/
theorem xyz_to_cct_near_zero_witness : xyz_to_cct ⟨0, 0, 0⟩ = none :=
  xyz_to_cct_d65_and_near_zero.2 ⟨0, 0, 0⟩ (by norm_num) (by norm_num) (by norm_num)

namespace LuminanceEotf

/-- C6 counterexample: the PQ encode of 0 is not exactly 0 — it equals
`(3424/4096)^((2523/4096)·128) ≈ 7.4e-7`, which is positive. -/
theorem pq_encode_zero_counterexample : linear_to_pq 0 ≠ 0 := by
  have h0 : (0:ℝ) ^ ST2084_M1 = 0 := Real.zero_rpow (by norm_num [ST2084_M1])
  simp only [linear_to_pq, h0, mul_zero, add_zero]
  exact ne_of_gt (Real.rpow_pos_of_pos (by norm_num [ST2084_C1]) _)

/-- Monotonicity of the PQ rational-function base in `t = v^m1`. -/
lemma pq_base_mono (tx ty : ℝ) (h0 : 0 ≤ tx) (hxy : tx ≤ ty) :
    (ST2084_C1 + ST2084_C2 * tx) / (1 + ST2084_C3 * tx)
      ≤ (ST2084_C1 + ST2084_C2 * ty) / (1 + ST2084_C3 * ty) := by
  have hty : 0 ≤ ty := le_trans h0 hxy
  have hd1 : (0:ℝ) < 1 + ST2084_C3 * tx := by
    have : (0:ℝ) ≤ ST2084_C3 * tx := mul_nonneg (by norm_num [ST2084_C3]) h0
    linarith
  have hd2 : (0:ℝ) < 1 + ST2084_C3 * ty := by
    have : (0:ℝ) ≤ ST2084_C3 * ty := mul_nonneg (by norm_num [ST2084_C3]) hty
    linarith
  rw [div_le_div_iff₀ hd1 hd2]
  have hcoef : (0:ℝ) < ST2084_C2 - ST2084_C1 * ST2084_C3 := by
    norm_num [ST2084_C1, ST2084_C2, ST2084_C3]
  nlinarith [mul_le_mul_of_nonneg_left hxy (le_of_lt hcoef)]

/-- Nonnegativity of the PQ rational-function base. -/
lemma pq_base_nonneg (tx : ℝ) (h0 : 0 ≤ tx) :
    0 ≤ (ST2084_C1 + ST2084_C2 * tx) / (1 + ST2084_C3 * tx) := by
  apply div_nonneg
  · have h1 : (0:ℝ) ≤ ST2084_C1 := by norm_num [ST2084_C1]
    have h2 : (0:ℝ) ≤ ST2084_C2 * tx := mul_nonneg (by norm_num [ST2084_C2]) h0
    linarith
  · have : (0:ℝ) ≤ ST2084_C3 * tx := mul_nonneg (by norm_num [ST2084_C3]) h0
    linarith

/-- PQ encode is monotone on the nonnegative reals. -/
lemma linear_to_pq_mono (x y : ℝ) (hx : 0 ≤ x) (hxy : x ≤ y) :
    linear_to_pq x ≤ linear_to_pq y := by
  simp only [linear_to_pq]
  have ht : x ^ ST2084_M1 ≤ y ^ ST2084_M1 :=
    Real.rpow_le_rpow hx hxy (by norm_num [ST2084_M1])
  have htx : 0 ≤ x ^ ST2084_M1 := Real.rpow_nonneg hx _
  exact Real.rpow_le_rpow (pq_base_nonneg _ htx) (pq_base_mono _ _ htx ht)
    (by norm_num [ST2084_M2])

/-- PQ decode of an input at most 1 is nonnegative. -/
lemma pq_to_linear_nonneg (x : ℝ) (hx1 : x ≤ 1) : 0 ≤ pq_to_linear x := by
  simp only [pq_to_linear]
  by_cases h : 0 < x
  · rw [if_pos h]
    have hxp1 : x ^ (1 / ST2084_M2) ≤ 1 :=
      Real.rpow_le_one (le_of_lt h) hx1 (by norm_num [ST2084_M2])
    have hden : (0:ℝ) < ST2084_C2 - ST2084_C3 * x ^ (1 / ST2084_M2) := by
      have : ST2084_C3 * x ^ (1 / ST2084_M2) ≤ ST2084_C3 * 1 :=
        mul_le_mul_of_nonneg_left hxp1 (by norm_num [ST2084_C3])
      have h23 : (0:ℝ) < ST2084_C2 - ST2084_C3 := by norm_num [ST2084_C2, ST2084_C3]
      linarith
    exact Real.rpow_nonneg (div_nonneg (le_max_right _ _) (le_of_lt hden)) _
  · rw [if_neg h]

/-- PQ decode is monotone below 1. -/
lemma pq_to_linear_mono (x y : ℝ) (hxy : x ≤ y) (hy1 : y ≤ 1) :
    pq_to_linear x ≤ pq_to_linear y := by
  by_cases hx : 0 < x
  · have hy : 0 < y := lt_of_lt_of_le hx hxy
    simp only [pq_to_linear, if_pos hx, if_pos hy]
    have hxp : x ^ (1 / ST2084_M2) ≤ y ^ (1 / ST2084_M2) :=
      Real.rpow_le_rpow (le_of_lt hx) hxy (by norm_num [ST2084_M2])
    have hyp1 : y ^ (1 / ST2084_M2) ≤ 1 :=
      Real.rpow_le_one (le_of_lt hy) hy1 (by norm_num [ST2084_M2])
    have hdy : (0:ℝ) < ST2084_C2 - ST2084_C3 * y ^ (1 / ST2084_M2) := by
      have : ST2084_C3 * y ^ (1 / ST2084_M2) ≤ ST2084_C3 * 1 :=
        mul_le_mul_of_nonneg_left hyp1 (by norm_num [ST2084_C3])
      have h23 : (0:ℝ) < ST2084_C2 - ST2084_C3 := by norm_num [ST2084_C2, ST2084_C3]
      linarith
    apply Real.rpow_le_rpow
    · exact div_nonneg (le_max_right _ _) (le_of_lt (lt_of_lt_of_le hdy (by
        have : ST2084_C3 * x ^ (1 / ST2084_M2) ≤ ST2084_C3 * y ^ (1 / ST2084_M2) :=
          mul_le_mul_of_nonneg_left hxp (by norm_num [ST2084_C3])
        linarith)))
    · have hnum : ((x ^ (1 / ST2084_M2) - ST2084_C1) ⊔ 0)
          ≤ ((y ^ (1 / ST2084_M2) - ST2084_C1) ⊔ 0) :=
        max_le_max (by linarith) (le_refl 0)
      have hdd : ST2084_C2 - ST2084_C3 * y ^ (1 / ST2084_M2)
          ≤ ST2084_C2 - ST2084_C3 * x ^ (1 / ST2084_M2) := by
        have : ST2084_C3 * x ^ (1 / ST2084_M2) ≤ ST2084_C3 * y ^ (1 / ST2084_M2) :=
          mul_le_mul_of_nonneg_left hxp (by norm_num [ST2084_C3])
        linarith
      exact div_le_div₀ (le_max_right _ _) hnum hdy hdd
    · norm_num [ST2084_M1]
  · have h0 : pq_to_linear x = 0 := by simp only [pq_to_linear, if_neg hx]
    rw [h0]
    exact pq_to_linear_nonneg y hy1

/-- C6 (amended): PQ encode of 0 equals `c1^m2`, a positive value below
`1e-6` (so not exactly 0); PQ decode maps every `x ≤ 0` to exactly 0; and
both encode and decode are monotone increasing over `[0, 1]`. -/
theorem pq_transfer_properties :
    (linear_to_pq 0 = ST2084_C1 ^ ST2084_M2 ∧ 0 < linear_to_pq 0 ∧ linear_to_pq 0 < 1e-6) ∧
      (∀ x : ℝ, x ≤ 0 → pq_to_linear x = 0) ∧
      (∀ x y : ℝ, 0 ≤ x → x ≤ y → y ≤ 1 → linear_to_pq x ≤ linear_to_pq y) ∧
      (∀ x y : ℝ, 0 ≤ x → x ≤ y → y ≤ 1 → pq_to_linear x ≤ pq_to_linear y) := by
  have h0 : (0:ℝ) ^ ST2084_M1 = 0 := Real.zero_rpow (by norm_num [ST2084_M1])
  have hz : linear_to_pq 0 = ST2084_C1 ^ ST2084_M2 := by
    simp only [linear_to_pq, h0, mul_zero, add_zero]
    norm_num
  refine ⟨⟨hz, ?_, ?_⟩, ?_, ?_, ?_⟩
  · rw [hz]
    exact Real.rpow_pos_of_pos (by norm_num [ST2084_C1]) _
  · rw [hz]
    have h78 : ST2084_C1 ^ ST2084_M2 ≤ ST2084_C1 ^ (78:ℝ) :=
      Real.rpow_le_rpow_of_exponent_ge (by norm_num [ST2084_C1])
        (by norm_num [ST2084_C1]) (by norm_num [ST2084_M2])
    have hnat : ST2084_C1 ^ (78:ℝ) = ST2084_C1 ^ (78:ℕ) := by
      rw [show ((78:ℝ) = ((78:ℕ):ℝ)) by norm_num, Real.rpow_natCast]
    have hb : ST2084_C1 ^ (78:ℕ) < (1e-6:ℝ) := by
      norm_num [ST2084_C1]
    calc ST2084_C1 ^ ST2084_M2 ≤ ST2084_C1 ^ (78:ℝ) := h78
      _ = ST2084_C1 ^ (78:ℕ) := hnat
      _ < 1e-6 := hb
  · intro x hx
    simp only [pq_to_linear, if_neg (not_lt.mpr hx)]
  · intro x y hx hxy _
    exact linear_to_pq_mono x y hx hxy
  · intro x y _ hxy hy1
    exact pq_to_linear_mono x y hxy hy1

/-- Witness for C6: the decode-of-nonpositive and encode-monotonicity parts
applied at concrete inputs. -/
theorem pq_transfer_properties_witness :
    pq_to_linear (-1) = 0 ∧ linear_to_pq 0 ≤ linear_to_pq 1 :=
  ⟨pq_transfer_properties.2.1 (-1) (by norm_num),
    pq_transfer_properties.2.2.1 0 1 (by norm_num) (by norm_num) (by norm_num)⟩

/-- Strict gain of the OETF-direction black-point compensation below 1. -/
lemma oetf_bpc_gt (q m v : ℝ) (hq : 0 < q) (hm : 0 < m) (h0 : 0 ≤ v) (h1 : v < 1) :
    v ^ q < v ^ q * (1 - m) + m := by
  have h : v ^ q < 1 := Real.rpow_lt_one h0 h1 hq
  nlinarith [mul_pos hm (sub_pos.mpr h)]

/-- Strict gain of the EOTF-direction black-point compensation below 1,
via strict convexity of `x ↦ x^g` for `g > 1`. -/
lemma eotf_bpc_gt (g m v : ℝ) (hg : 1 < g) (hm0 : 0 < m) (hm1 : m < 1) (h0 : 0 ≤ v)
    (h1 : v < 1) :
    v ^ g < max ((v - m) / (1 - m)) 0 ^ g * (1 - m) + m := by
  have hm1' : (0:ℝ) < 1 - m := by linarith
  rcases le_or_lt v m with hvm | hvm
  · have hmax : max ((v - m) / (1 - m)) 0 = 0 :=
      max_eq_right (div_nonpos_iff.mpr (Or.inr ⟨by linarith, le_of_lt hm1'⟩))
    rw [hmax, Real.zero_rpow (by linarith), zero_mul, zero_add]
    rcases eq_or_lt_of_le h0 with h | h
    · rw [← h, Real.zero_rpow (by linarith)]
      exact hm0
    · calc v ^ g < v ^ (1:ℝ) := Real.rpow_lt_rpow_of_exponent_gt h h1 hg
        _ = v := Real.rpow_one v
        _ ≤ m := hvm
  · set u := (v - m) / (1 - m) with hu_def
    have hu0 : 0 < u := div_pos (by linarith) hm1'
    have hu1 : u < 1 := by
      rw [hu_def, div_lt_one hm1']
      linarith
    have hmax : max u 0 = u := max_eq_left (le_of_lt hu0)
    rw [hmax]
    have sc := strictConvexOn_rpow hg
    have key := sc.2 (Set.mem_Ici.mpr (zero_le_one)) (Set.mem_Ici.mpr (le_of_lt hu0))
      (by intro hh; rw [← hh] at hu1; exact absurd hu1 (lt_irrefl 1)) hm0 hm1'
      (by ring)
    simp only [smul_eq_mul] at key
    have harg : m * 1 + (1 - m) * u = v := by
      rw [hu_def]
      field_simp
    rw [harg, Real.one_rpow] at key
    calc v ^ g < m * 1 + (1 - m) * u ^ g := key
      _ = u ^ g * (1 - m) + m := by ring

/-- Range of the OETF-direction black-point compensation. -/
lemma oetf_bpc_bounds (q m v : ℝ) (hq : 0 ≤ q) (hm0 : 0 ≤ m) (hm1 : m ≤ 1) (h0 : 0 ≤ v)
    (h1 : v ≤ 1) :
    m ≤ v ^ q * (1 - m) + m ∧ v ^ q * (1 - m) + m ≤ 1 := by
  have hl : (0:ℝ) ≤ v ^ q := Real.rpow_nonneg h0 _
  have hu : v ^ q ≤ 1 := Real.rpow_le_one h0 h1 hq
  constructor
  · nlinarith [mul_nonneg hl (by linarith : (0:ℝ) ≤ 1 - m)]
  · nlinarith [mul_le_mul_of_nonneg_right hu (by linarith : (0:ℝ) ≤ 1 - m)]

/-- Range of the EOTF-direction black-point compensation. -/
lemma eotf_bpc_bounds (g m v : ℝ) (hg : 0 ≤ g) (hm0 : 0 ≤ m) (hm1 : m < 1) (h1 : v ≤ 1) :
    m ≤ max ((v - m) / (1 - m)) 0 ^ g * (1 - m) + m ∧
      max ((v - m) / (1 - m)) 0 ^ g * (1 - m) + m ≤ 1 := by
  have hm1' : (0:ℝ) < 1 - m := by linarith
  have hu0 : 0 ≤ max ((v - m) / (1 - m)) 0 := le_max_right _ _
  have hu1 : max ((v - m) / (1 - m)) 0 ≤ 1 := by
    apply max_le _ zero_le_one
    rw [div_le_one hm1']
    linarith
  have hl : (0:ℝ) ≤ max ((v - m) / (1 - m)) 0 ^ g := Real.rpow_nonneg hu0 _
  have hu : max ((v - m) / (1 - m)) 0 ^ g ≤ 1 := Real.rpow_le_one hu0 hu1 hg
  constructor
  · nlinarith [mul_nonneg hl (le_of_lt hm1')]
  · nlinarith [mul_le_mul_of_nonneg_right hu (le_of_lt hm1')]

/-- Gamma-kind encodes map 0 to 0 (used for the min = 0 identity). -/
lemma oetf_zero_gamma22 : Gamma22.oetf 0 = 0 := by
  simp only [oetf]
  exact Real.zero_rpow (by norm_num [GAMMA_2_2_INV, GAMMA_2_2])

/-- Gamma-kind encodes map 0 to 0 (used for the min = 0 identity). -/
lemma oetf_zero_gamma24 : Gamma24.oetf 0 = 0 := by
  simp only [oetf]
  exact Real.zero_rpow (by norm_num [GAMMA_2_4_INV, GAMMA_2_4])

/-- Effective minimum of `value_bpc` collapses to 0 when `min = 0`. -/
lemma bpc_min_zero (e : LuminanceEotf) (lm : Bool) :
    (if e = PQ then (0:ℝ) else if lm then 0 else e.oetf 0) = 0 := by
  cases e <;> cases lm <;> simp [oetf_zero_gamma22, oetf_zero_gamma24]

/-- C5 (amended): with `min = 0` black-point compensation is the identity on
nonnegative inputs; for the gamma kinds with `0 < min < 1` the compensated
value strictly exceeds the uncompensated one for `v ∈ [0, 1)` (at `v = 1`
they coincide) and always lies within `[min, 1]` for `v ∈ [0, 1]`; and for
PQ `value_bpc` ignores the `min` argument entirely. -/
theorem value_bpc_properties :
    (∀ (e : LuminanceEotf) (v : ℝ) (o lm : Bool), 0 ≤ v →
        e.value_bpc 0 v o lm = e.value v o) ∧
      (∀ (e : LuminanceEotf), e ≠ PQ →
        ∀ (m v : ℝ) (o lm : Bool), 0 < m → m < 1 → 0 ≤ v → v < 1 →
          e.value v o < e.value_bpc m v o lm) ∧
      (∀ (e : LuminanceEotf), e ≠ PQ →
        ∀ (m v : ℝ) (o lm : Bool), 0 < m → m < 1 → 0 ≤ v → v ≤ 1 →
          m ≤ e.value_bpc m v o lm ∧ e.value_bpc m v o lm ≤ 1) ∧
      (∀ (m v : ℝ) (o lm : Bool), PQ.value_bpc m v o lm = PQ.value_bpc 0 v o lm) := by
  refine ⟨?_, ?_, ?_, ?_⟩
  · intro e v o lm h0
    simp only [value_bpc, bpc_min_zero]
    cases o
    · simp only [Bool.false_eq_true, if_false, eotf_bpc, value, sub_zero, div_one,
        max_eq_left h0, mul_one, add_zero]
    · simp only [if_true, oetf_bpc, value, sub_zero, mul_one, add_zero]
  · intro e hne m v o lm hm0 hm1 h0 h1
    simp only [value_bpc, if_neg hne]
    have hq22 : (0:ℝ) < GAMMA_2_2_INV := by norm_num [GAMMA_2_2_INV, GAMMA_2_2]
    have hq24 : (0:ℝ) < GAMMA_2_4_INV := by norm_num [GAMMA_2_4_INV, GAMMA_2_4]
    have hg22 : (1:ℝ) < GAMMA_2_2 := by norm_num [GAMMA_2_2]
    have hg24 : (1:ℝ) < GAMMA_2_4 := by norm_num [GAMMA_2_4]
    cases e
    · cases lm
      · simp only [Bool.false_eq_true, if_false, oetf]
        have hm0' : 0 < (m:ℝ) ^ GAMMA_2_2_INV := Real.rpow_pos_of_pos hm0 _
        have hm1' : (m:ℝ) ^ GAMMA_2_2_INV < 1 := Real.rpow_lt_one (le_of_lt hm0) hm1 hq22
        cases o
        · simp only [Bool.false_eq_true, if_false, eotf_bpc, value, eotf]
          exact eotf_bpc_gt GAMMA_2_2 _ v hg22 hm0' hm1' h0 h1
        · simp only [if_true, oetf_bpc, value, oetf]
          exact oetf_bpc_gt GAMMA_2_2_INV _ v hq22 hm0' h0 h1
      · simp only [if_true]
        cases o
        · simp only [Bool.false_eq_true, if_false, eotf_bpc, value, eotf]
          exact eotf_bpc_gt GAMMA_2_2 m v hg22 hm0 hm1 h0 h1
        · simp only [if_true, oetf_bpc, value, oetf]
          exact oetf_bpc_gt GAMMA_2_2_INV m v hq22 hm0 h0 h1
    · cases lm
      · simp only [Bool.false_eq_true, if_false, oetf]
        have hm0' : 0 < (m:ℝ) ^ GAMMA_2_4_INV := Real.rpow_pos_of_pos hm0 _
        have hm1' : (m:ℝ) ^ GAMMA_2_4_INV < 1 := Real.rpow_lt_one (le_of_lt hm0) hm1 hq24
        cases o
        · simp only [Bool.false_eq_true, if_false, eotf_bpc, value, eotf]
          exact eotf_bpc_gt GAMMA_2_4 _ v hg24 hm0' hm1' h0 h1
        · simp only [if_true, oetf_bpc, value, oetf]
          exact oetf_bpc_gt GAMMA_2_4_INV _ v hq24 hm0' h0 h1
      · simp only [if_true]
        cases o
        · simp only [Bool.false_eq_true, if_false, eotf_bpc, value, eotf]
          exact eotf_bpc_gt GAMMA_2_4 m v hg24 hm0 hm1 h0 h1
        · simp only [if_true, oetf_bpc, value, oetf]
          exact oetf_bpc_gt GAMMA_2_4_INV m v hq24 hm0 h0 h1
    · exact absurd rfl hne
  · intro e hne m v o lm hm0 hm1 h0 h1
    simp only [value_bpc, if_neg hne]
    have hq22 : (0:ℝ) ≤ GAMMA_2_2_INV := by norm_num [GAMMA_2_2_INV, GAMMA_2_2]
    have hq24 : (0:ℝ) ≤ GAMMA_2_4_INV := by norm_num [GAMMA_2_4_INV, GAMMA_2_4]
    have hg22 : (0:ℝ) ≤ GAMMA_2_2 := by norm_num [GAMMA_2_2]
    have hg24 : (0:ℝ) ≤ GAMMA_2_4 := by norm_num [GAMMA_2_4]
    cases e
    · have hmm : m ≤ (if lm then m else Gamma22.oetf m) ∧
          0 < (if lm then m else Gamma22.oetf m) ∧ (if lm then m else Gamma22.oetf m) < 1 := by
        cases lm
        · simp only [Bool.false_eq_true, if_false, oetf]
          refine ⟨?_, Real.rpow_pos_of_pos hm0 _,
            Real.rpow_lt_one (le_of_lt hm0) hm1 (by norm_num [GAMMA_2_2_INV, GAMMA_2_2])⟩
          calc m = m ^ (1:ℝ) := (Real.rpow_one m).symm
            _ ≤ m ^ GAMMA_2_2_INV := Real.rpow_le_rpow_of_exponent_ge hm0 (le_of_lt hm1)
                (by norm_num [GAMMA_2_2_INV, GAMMA_2_2])
        · simp only [if_true]
          exact ⟨le_refl m, hm0, hm1⟩
      cases o
      · simp only [Bool.false_eq_true, if_false, eotf_bpc, eotf]
        have hb := eotf_bpc_bounds GAMMA_2_2 _ v hg22 (le_of_lt hmm.2.1) hmm.2.2 h1
        exact ⟨le_trans hmm.1 hb.1, hb.2⟩
      · simp only [if_true, oetf_bpc, oetf]
        have hb := oetf_bpc_bounds GAMMA_2_2_INV _ v hq22 (le_of_lt hmm.2.1)
          (le_of_lt hmm.2.2) h0 h1
        exact ⟨le_trans hmm.1 hb.1, hb.2⟩
    · have hmm : m ≤ (if lm then m else Gamma24.oetf m) ∧
          0 < (if lm then m else Gamma24.oetf m) ∧ (if lm then m else Gamma24.oetf m) < 1 := by
        cases lm
        · simp only [Bool.false_eq_true, if_false, oetf]
          refine ⟨?_, Real.rpow_pos_of_pos hm0 _,
            Real.rpow_lt_one (le_of_lt hm0) hm1 (by norm_num [GAMMA_2_4_INV, GAMMA_2_4])⟩
          calc m = m ^ (1:ℝ) := (Real.rpow_one m).symm
            _ ≤ m ^ GAMMA_2_4_INV := Real.rpow_le_rpow_of_exponent_ge hm0 (le_of_lt hm1)
                (by norm_num [GAMMA_2_4_INV, GAMMA_2_4])
        · simp only [if_true]
          exact ⟨le_refl m, hm0, hm1⟩
      cases o
      · simp only [Bool.false_eq_true, if_false, eotf_bpc, eotf]
        have hb := eotf_bpc_bounds GAMMA_2_4 _ v hg24 (le_of_lt hmm.2.1) hmm.2.2 h1
        exact ⟨le_trans hmm.1 hb.1, hb.2⟩
      · simp only [if_true, oetf_bpc, oetf]
        have hb := oetf_bpc_bounds GAMMA_2_4_INV _ v hq24 (le_of_lt hmm.2.1)
          (le_of_lt hmm.2.2) h0 h1
        exact ⟨le_trans hmm.1 hb.1, hb.2⟩
    · exact absurd rfl hne
  · intro m v o lm
    simp [value_bpc]

/-- C5 counterexample: at `v = 1` with `min = 0.1 > 0` (Gamma 2.2, OETF
direction, linear min) the compensated value equals the uncompensated one,
so it is not strictly greater. -/
theorem value_bpc_not_strict_at_one :
    Gamma22.value_bpc 0.1 1 true true = Gamma22.value 1 true ∧
      ¬ Gamma22.value 1 true < Gamma22.value_bpc 0.1 1 true true := by
  have h : Gamma22.value_bpc 0.1 1 true true = Gamma22.value 1 true := by
    simp only [value_bpc, value, oetf_bpc, oetf, if_true, reduceCtorEq, if_false,
      Real.one_rpow]
    norm_num
  exact ⟨h, by rw [h]; exact lt_irrefl _⟩

/-- Witness for C5: each part of the amended statement applied at concrete
inputs (identity at min 0, strict gain and bounds at min 0.5, v 0.25, and PQ
min-invariance at min 0.3). -/
theorem value_bpc_properties_witness :
    Gamma22.value_bpc 0 0.5 true true = Gamma22.value 0.5 true ∧
      Gamma22.value 0.25 true < Gamma22.value_bpc 0.5 0.25 true true ∧
      (0.5 ≤ Gamma22.value_bpc 0.5 0.25 false true ∧
        Gamma22.value_bpc 0.5 0.25 false true ≤ 1) ∧
      PQ.value_bpc 0.3 0.25 true false = PQ.value_bpc 0 0.25 true false := by
  refine ⟨value_bpc_properties.1 Gamma22 0.5 true true (by norm_num),
    value_bpc_properties.2.1 Gamma22 (by decide) 0.5 0.25 true true (by norm_num)
      (by norm_num) (by norm_num) (by norm_num),
    value_bpc_properties.2.2.1 Gamma22 (by decide) 0.5 0.25 false true (by norm_num)
      (by norm_num) (by norm_num) (by norm_num),
    value_bpc_properties.2.2.2 0.3 0.25 true false⟩

end LuminanceEotf

/-- C4 (amended): for a target stimulus within `[0, 1]`, `gamma()` returns
`None` exactly when the stimulus is strictly below 0.01, or equals 1.0, or
the reading is not a white-stimulus reading.  (The Rust range `0.01..1.0`
includes its lower endpoint, so a stimulus of exactly 0.01 yields a value.) -/
theorem gamma_none_iff (r : ReadingResult) (h0 : 0 ≤ r.target.ref_rgb.x)
    (h1 : r.target.ref_rgb.x ≤ 1) :
    r.gamma = none ↔ (r.target.ref_rgb.x < 0.01 ∨ r.target.ref_rgb.x = 1 ∨
      ¬ r.is_white_stimulus_reading) := by
  simp only [ReadingResult.gamma]
  split_ifs with h
  · simp only [reduceCtorEq, false_iff]
    push_neg
    refine ⟨h.2.1, ?_, h.1⟩
    intro heq
    exact absurd (heq ▸ h.2.2) (lt_irrefl 1)
  · simp only [true_iff]
    rw [Classical.not_and_iff_or_not_not] at h
    rcases h with hw | hnz
    · exact Or.inr (Or.inr hw)
    · rw [ReadingResult.not_zero_or_one_rgb, Classical.not_and_iff_or_not_not] at hnz
      rcases hnz with h' | h'
      · exact Or.inl (not_le.mp h')
      · exact Or.inr (Or.inl (le_antisymm h1 (not_lt.mp h')))

/-- C4 counterexample: at a white stimulus of exactly 0.01 (which the claim
counts as "≤ 0.01", hence `None`) the code returns a value. -/
theorem gamma_at_exact_lower_bound :
    (ReadingResult.mk ⟨0, 1, 1, TargetColorspace.Rec709, LuminanceEotf.Gamma22,
        ⟨0.01, 0.01, 0.01⟩⟩ ⟨0, 0, 0⟩ ⟨0, 0, 0⟩ ⟨0, 0, 0⟩ ⟨0, 0, 0⟩ 0 ⟨0, 0, 0⟩).gamma
      ≠ none ∧
    (ReadingResult.mk ⟨0, 1, 1, TargetColorspace.Rec709, LuminanceEotf.Gamma22,
        ⟨0.01, 0.01, 0.01⟩⟩ ⟨0, 0, 0⟩ ⟨0, 0, 0⟩ ⟨0, 0, 0⟩ ⟨0, 0, 0⟩ 0
        ⟨0, 0, 0⟩).is_white_stimulus_reading ∧
    (ReadingResult.mk ⟨0, 1, 1, TargetColorspace.Rec709, LuminanceEotf.Gamma22,
        ⟨0.01, 0.01, 0.01⟩⟩ ⟨0, 0, 0⟩ ⟨0, 0, 0⟩ ⟨0, 0, 0⟩ ⟨0, 0, 0⟩ 0
        ⟨0, 0, 0⟩).target.ref_rgb.x ≤ 0.01 := by
  have hw : (ReadingResult.mk ⟨0, 1, 1, TargetColorspace.Rec709, LuminanceEotf.Gamma22,
      ⟨0.01, 0.01, 0.01⟩⟩ ⟨0, 0, 0⟩ ⟨0, 0, 0⟩ ⟨0, 0, 0⟩ ⟨0, 0, 0⟩ 0
      ⟨0, 0, 0⟩).is_white_stimulus_reading := by
    intro c hc
    simp only [List.mem_cons, List.not_mem_nil, or_false] at hc
    rcases hc with h | h | h <;> rw [h]
  refine ⟨?_, hw, by norm_num⟩
  simp only [ReadingResult.gamma]
  rw [if_pos ⟨hw, by constructor <;> norm_num⟩]
  exact Option.some_ne_none _

/-- Witness for C4: a white stimulus of 0.005 (< 0.01) yields `None`. -/
theorem gamma_none_iff_witness :
    (ReadingResult.mk ⟨0, 1, 1, TargetColorspace.Rec709, LuminanceEotf.Gamma22,
        ⟨0.005, 0.005, 0.005⟩⟩ ⟨0, 0, 0⟩ ⟨0, 0, 0⟩ ⟨0, 0, 0⟩ ⟨0, 0, 0⟩ 0
        ⟨0, 0, 0⟩).gamma = none :=
  (gamma_none_iff _ (by norm_num) (by norm_num)).mpr (Or.inl (by norm_num))

/-- C8 counterexample: `(0.0, -0.0, 0.0)` is accepted as a white-stimulus
reading (IEEE `==` treats the zeros as equal) although the three components
are not bitwise equal. -/
theorem is_white_f64_counterexample :
    is_white_stimulus_f64 (F64.num 0) F64.negZero (F64.num 0) = true ∧
      F64.num 0 ≠ F64.negZero := by
  constructor
  · decide
  · decide

/-- C8 (amended): `is_white_stimulus_reading` is true iff the three
components are numerically equal in the IEEE sense — they share one numeric
value (excluding NaN) — not iff they are bitwise equal. -/
theorem is_white_f64_iff_numeric (r g b : F64) :
    is_white_stimulus_f64 r g b = true ↔
      ∃ q, f64Val r = some q ∧ f64Val g = some q ∧ f64Val b = some q := by
  cases r <;> cases g <;> cases b <;>
    simp [is_white_stimulus_f64, f64Eq, f64Val, Bool.and_eq_true, beq_iff_eq] <;>
    first
      | exact fun _ => eq_comm
      | exact eq_comm

/-- Witness for C8: the characterization applied at `(1.0, 1.0, 1.0)`. -/
theorem is_white_f64_iff_numeric_witness :
    ∃ q, f64Val (F64.num 1) = some q ∧ f64Val (F64.num 1) = some q ∧
      f64Val (F64.num 1) = some q :=
  (is_white_f64_iff_numeric (F64.num 1) (F64.num 1) (F64.num 1)).mp (by decide)

/-- C3 counterexample: the measurement timeout in the source is 20 seconds,
not the 30 seconds stated by the claim. -/
theorem measurement_timeout_twenty_not_thirty : MEASURE_TIMEOUT_SECS ≠ 30 := by
  decide

/-- C3 (amended): a single measurement is bounded by a 20-second timeout;
when it elapses the subprocess is not torn down — the loop emits exactly one
empty-result event (followed by the done-measuring signal to the external
channel) and stays alive, able to process further commands. -/
theorem measurement_timeout_recovers :
    MEASURE_TIMEOUT_SECS = 20 ∧
      ∀ (ρ : Type) (mk : String → Option ρ) (st : WorkerState) (ct' : Bool),
        st.alive = true →
        workerStep mk st (WorkerInput.doReading (MeasureAttempt.timesOut ct'))
          = (⟨ct', true⟩,
              [SpotreadEvent.spotreadRes none, SpotreadEvent.spotreadDoneMeasuring]) := by
  refine ⟨rfl, ?_⟩
  intro ρ mk st ct' halive
  simp only [workerStep, halive]

/-- Witness for C3: the timeout transition at a concrete live state. -/
theorem measurement_timeout_recovers_witness :
    workerStep (fun _ => (none : Option Unit)) ⟨false, true⟩
        (WorkerInput.doReading (MeasureAttempt.timesOut false))
      = (⟨false, true⟩,
          [SpotreadEvent.spotreadRes none, SpotreadEvent.spotreadDoneMeasuring]) :=
  measurement_timeout_recovers.2 Unit (fun _ => none) ⟨false, true⟩ false rfl

/-- C7: a "do reading" command arriving before any ready-prompt has been
observed (`can_take_reading = false`) still succeeds: the driver first
flushes stdout, sees the prompt in the flushed chunk, writes exactly one
trigger newline, and then awaits the result read — emitting the parsed
result and returning `Ok`. -/
theorem try_measure_resync_succeeds {ρ : Type} (mk : String → Option ρ)
    (chunk : List String)
    (hprompt : chunk.any (fun l => strContains l "take a reading") = true)
    (line : String) (r : ρ)
    (hres : strStartsWith line "Result is XYZ:" = true)
    (hmk : mk line = some r) :
    try_measure mk false [some chunk, some [line]]
      = ⟨1, [SpotreadEvent.spotreadRes (some r)], false, true⟩ := by
  simp only [try_measure, List.get?, Option.join, Option.some_bind, id_eq,
    Bool.false_eq_true, if_false, hprompt, if_true, eq_self_iff_true, tryMeasureLines,
    hres, hmk, Option.isNone_none, Bool.and_true]

/-- Witness for C7: a concrete prompt chunk and result line. -/
theorem try_measure_resync_succeeds_witness :
    try_measure (fun l => some l) false
        [some ["take a reading:"], some ["Result is XYZ: 1.0 2.0 3.0, D50 Lab: 4.0 5.0 6.0"]]
      = ⟨1, [SpotreadEvent.spotreadRes (some "Result is XYZ: 1.0 2.0 3.0, D50 Lab: 4.0 5.0 6.0")],
          false, true⟩ :=
  try_measure_resync_succeeds (fun l => some l) ["take a reading:"] (by decide)
    "Result is XYZ: 1.0 2.0 3.0, D50 Lab: 4.0 5.0 6.0" _ (by decide) rfl

/-- C2 (amended): `luminance(as_oetf)` normalizes the measured Y by `max_y`
(by `max_hdr_mdl` with min forced to 0 when the target EOTF is PQ); with
`as_oetf = true` it returns the normalized value with the OETF applied
twice (`oetf (value y true) = oetf (oetf y)`); with `as_oetf = false` it
returns the linear value remapped as `y·(1-min)+min` where
`min = oetf (min_y / max_y)`. -/
theorem luminance_characterization (r : ReadingResult) :
    (r.target.eotf ≠ LuminanceEotf.PQ →
      r.luminance true
          = r.target.eotf.oetf (r.target.eotf.oetf (r.xyy.z / r.target.max_y)) ∧
        r.luminance false
          = (r.xyy.z / r.target.max_y) *
              (1 - r.target.eotf.oetf (r.target.min_y / r.target.max_y)) +
            r.target.eotf.oetf (r.target.min_y / r.target.max_y)) ∧
    (r.target.eotf = LuminanceEotf.PQ →
      r.luminance true
          = LuminanceEotf.PQ.oetf (LuminanceEotf.PQ.oetf (r.xyy.z / r.target.max_hdr_mdl)) ∧
        r.luminance false
          = (r.xyy.z / r.target.max_hdr_mdl) *
              (1 - LuminanceEotf.PQ.oetf (0 / r.target.max_hdr_mdl)) +
            LuminanceEotf.PQ.oetf (0 / r.target.max_hdr_mdl)) := by
  constructor
  · intro hne
    constructor
    · simp only [ReadingResult.luminance, if_neg hne, LuminanceEotf.value, if_true]
    · simp only [ReadingResult.luminance, if_neg hne, Bool.false_eq_true, if_false]
  · intro heq
    constructor
    · simp only [ReadingResult.luminance, heq, if_pos, LuminanceEotf.value, if_true]
    · simp only [ReadingResult.luminance, heq, if_pos, Bool.false_eq_true, if_false]

/-- C2 counterexample: for a Gamma 2.2 target with `max_y = 100` and a
measured Y of 25, `luminance(true)` differs from the OETF applied exactly
once to the normalized value — the code applies the OETF twice. -/
theorem luminance_oetf_applied_twice :
    (ReadingResult.mk ⟨0, 100, 1000, TargetColorspace.Rec709, LuminanceEotf.Gamma22,
        ⟨1, 1, 1⟩⟩ ⟨0, 0, 0⟩ ⟨0, 0, 0⟩ ⟨0, 0, 25⟩ ⟨0, 0, 0⟩ 0 ⟨0, 0, 0⟩).luminance true
      ≠ LuminanceEotf.Gamma22.oetf
          ((ReadingResult.mk ⟨0, 100, 1000, TargetColorspace.Rec709, LuminanceEotf.Gamma22,
            ⟨1, 1, 1⟩⟩ ⟨0, 0, 0⟩ ⟨0, 0, 0⟩ ⟨0, 0, 25⟩ ⟨0, 0, 0⟩ 0 ⟨0, 0, 0⟩).xyy.z / 100) := by
  have h : (ReadingResult.mk ⟨0, 100, 1000, TargetColorspace.Rec709, LuminanceEotf.Gamma22,
      ⟨1, 1, 1⟩⟩ ⟨0, 0, 0⟩ ⟨0, 0, 0⟩ ⟨0, 0, 25⟩ ⟨0, 0, 0⟩ 0 ⟨0, 0, 0⟩).luminance true
        = LuminanceEotf.Gamma22.oetf (LuminanceEotf.Gamma22.oetf ((25:ℝ) / 100)) := by
    simp only [ReadingResult.luminance, LuminanceEotf.value, reduceCtorEq, if_false,
      if_true]
  rw [h]
  show LuminanceEotf.Gamma22.oetf (LuminanceEotf.Gamma22.oetf ((25:ℝ) / 100))
      ≠ LuminanceEotf.Gamma22.oetf ((25:ℝ) / 100)
  simp only [LuminanceEotf.oetf]
  have hbase : ((25:ℝ)/100) = (0.25:ℝ) := by norm_num
  rw [hbase]
  have hq : (0:ℝ) < LuminanceEotf.GAMMA_2_2_INV := by
    norm_num [LuminanceEotf.GAMMA_2_2_INV, LuminanceEotf.GAMMA_2_2]
  have hq1 : LuminanceEotf.GAMMA_2_2_INV < 1 := by
    norm_num [LuminanceEotf.GAMMA_2_2_INV, LuminanceEotf.GAMMA_2_2]
  have hcomp : ((0.25:ℝ) ^ LuminanceEotf.GAMMA_2_2_INV) ^ LuminanceEotf.GAMMA_2_2_INV
      = (0.25:ℝ) ^ (LuminanceEotf.GAMMA_2_2_INV * LuminanceEotf.GAMMA_2_2_INV) :=
    (Real.rpow_mul (by norm_num) _ _).symm
  rw [hcomp]
  have hlt : (0.25:ℝ) ^ LuminanceEotf.GAMMA_2_2_INV
      < (0.25:ℝ) ^ (LuminanceEotf.GAMMA_2_2_INV * LuminanceEotf.GAMMA_2_2_INV) := by
    apply Real.rpow_lt_rpow_of_exponent_gt (by norm_num) (by norm_num)
    nlinarith
  exact (ne_of_lt hlt).symm

/-- Witness for C2: the non-PQ characterization applied at a concrete
reading. -/
theorem luminance_characterization_witness :
    (ReadingResult.mk ⟨0, 100, 1000, TargetColorspace.Rec709, LuminanceEotf.Gamma22,
        ⟨1, 1, 1⟩⟩ ⟨0, 0, 0⟩ ⟨0, 0, 0⟩ ⟨0, 0, 25⟩ ⟨0, 0, 0⟩ 0 ⟨0, 0, 0⟩).luminance true
        = LuminanceEotf.Gamma22.oetf (LuminanceEotf.Gamma22.oetf (((25:ℝ)) / 100)) ∧
      (ReadingResult.mk ⟨0, 100, 1000, TargetColorspace.Rec709, LuminanceEotf.Gamma22,
          ⟨1, 1, 1⟩⟩ ⟨0, 0, 0⟩ ⟨0, 0, 0⟩ ⟨0, 0, 25⟩ ⟨0, 0, 0⟩ 0 ⟨0, 0, 0⟩).luminance false
        = ((25:ℝ) / 100) * (1 - LuminanceEotf.Gamma22.oetf ((0:ℝ) / 100)) +
            LuminanceEotf.Gamma22.oetf ((0:ℝ) / 100) :=
  (luminance_characterization _).1 (by decide)

/-- C9 counterexample: on the empty result set the code returns `Some` of a
degenerate quotient, not `None`. -/
theorem results_average_gamma_empty_not_none :
    ReadingResult.results_average_gamma [] ≠ none := by
  simp [ReadingResult.results_average_gamma]

/-- Bounds on `ln 0.5` from the Mathlib decimal bounds on `ln 2`. -/
lemma log_half_bounds :
    Real.log 0.5 < -0.6931471803 ∧ -0.6931471808 < Real.log 0.5 := by
  have h : (0.5:ℝ) = 2⁻¹ := by norm_num
  rw [h, Real.log_inv]
  constructor
  · have := Real.log_two_gt_d9
    linarith
  · have := Real.log_two_lt_d9
    linarith

/-- Logarithm identity used for the concrete gamma value. -/
lemma log_quarter : Real.log 0.25 = 2 * Real.log 0.5 := by
  have h : (0.25:ℝ) = 0.5 ^ (2:ℕ) := by norm_num
  rw [h, Real.log_pow]
  push_cast
  ring

/-- The empirical-gamma estimate at stimulus 0.5 and luminance 0.25 rounds
to exactly 2. -/
lemma gamma_half_quarter : LuminanceEotf.gamma 0.5 0.25 = 2 := by
  simp only [LuminanceEotf.gamma, log_quarter]
  set L : ℝ := Real.log 0.5 with hL
  have hlo : -0.6931471808 < L := log_half_bounds.2
  have hhi : L < -0.6931471803 := log_half_bounds.1
  have hden_neg : L - 1e-7 < 0 := by linarith
  set g : ℝ := (2 * L - 1e-7) / (L - 1e-7) with hg_def
  have hg_lo : (1.9995:ℝ) ≤ g := by
    rw [hg_def, le_div_iff_of_neg hden_neg]
    linarith
  have hg_hi : g < 2.0005 := by
    rw [hg_def, div_lt_iff_of_neg hden_neg]
    linarith
  have h0 : (0:ℝ) ≤ g * 1e3 := by linarith
  rw [fround, if_pos h0]
  have hfl : ⌊g * 1e3 + 1/2⌋ = 2000 := by
    rw [Int.floor_eq_iff]
    constructor
    · push_cast
      linarith
    · push_cast
      linarith
  rw [hfl]
  norm_num

/-- An eligible reading (white stimulus 0.5, measured Y 25 of 100) with
empirical gamma exactly 2. -/
lemma rEl_gamma :
    (ReadingResult.mk ⟨0, 100, 1000, TargetColorspace.Rec709, LuminanceEotf.Gamma22,
        ⟨0.5, 0.5, 0.5⟩⟩ ⟨0, 0, 0⟩ ⟨0, 0, 0⟩ ⟨0, 0, 25⟩ ⟨0, 0, 0⟩ 0 ⟨0, 0, 0⟩).gamma
      = some 2 := by
  have hw : (ReadingResult.mk ⟨0, 100, 1000, TargetColorspace.Rec709, LuminanceEotf.Gamma22,
      ⟨0.5, 0.5, 0.5⟩⟩ ⟨0, 0, 0⟩ ⟨0, 0, 0⟩ ⟨0, 0, 25⟩ ⟨0, 0, 0⟩ 0
      ⟨0, 0, 0⟩).is_white_stimulus_reading := by
    intro c hc
    simp only [List.mem_cons, List.not_mem_nil, or_false] at hc
    rcases hc with h | h | h <;> rw [h]
  simp only [ReadingResult.gamma]
  rw [if_pos ⟨hw, by constructor <;> norm_num⟩]
  have hbpc : (ReadingResult.mk ⟨0, 100, 1000, TargetColorspace.Rec709, LuminanceEotf.Gamma22,
      ⟨0.5, 0.5, 0.5⟩⟩ ⟨0, 0, 0⟩ ⟨0, 0, 0⟩ ⟨0, 0, 25⟩ ⟨0, 0, 0⟩ 0
      ⟨0, 0, 0⟩).ref_rgb_linear_bpc.x = 0.5 := by
    simp only [ReadingResult.ref_rgb_linear_bpc, ReadingResult.target_min_normalized]
    rw [show ((0:ℝ) / 100) = 0 by norm_num, LuminanceEotf.oetf_zero_gamma22]
    norm_num
  have hlum : (ReadingResult.mk ⟨0, 100, 1000, TargetColorspace.Rec709, LuminanceEotf.Gamma22,
      ⟨0.5, 0.5, 0.5⟩⟩ ⟨0, 0, 0⟩ ⟨0, 0, 0⟩ ⟨0, 0, 25⟩ ⟨0, 0, 0⟩ 0
      ⟨0, 0, 0⟩).luminance false = 0.25 := by
    simp only [ReadingResult.luminance, reduceCtorEq, if_false, Bool.false_eq_true]
    rw [show ((0:ℝ) / 100) = 0 by norm_num, LuminanceEotf.oetf_zero_gamma22]
    norm_num
  rw [hbpc, hlum, gamma_half_quarter]

/-- An ineligible reading (stimulus exactly 1.0) has no gamma. -/
lemma rIn_gamma :
    (ReadingResult.mk ⟨0, 100, 1000, TargetColorspace.Rec709, LuminanceEotf.Gamma22,
        ⟨1, 1, 1⟩⟩ ⟨0, 0, 0⟩ ⟨0, 0, 0⟩ ⟨0, 0, 25⟩ ⟨0, 0, 0⟩ 0 ⟨0, 0, 0⟩).gamma
      = none := by
  simp only [ReadingResult.gamma]
  rw [if_neg]
  rintro ⟨-, -, h⟩
  exact absurd h (lt_irrefl 1)

/-- C9 (amended): `results_average_gamma` always returns `Some` — the sum of
the gammas of the eligible readings divided by the total number of readings.
On a two-reading set with one eligible reading of gamma 2 it yields 1 (the
eligible-only average would be 2), and on degenerate input it returns a
degenerate quotient rather than `None`. -/
theorem results_average_gamma_total_count :
    (∀ rs : List ReadingResult, ∃ v, ReadingResult.results_average_gamma rs = some v) ∧
      ReadingResult.results_average_gamma
          [ReadingResult.mk ⟨0, 100, 1000, TargetColorspace.Rec709, LuminanceEotf.Gamma22,
              ⟨0.5, 0.5, 0.5⟩⟩ ⟨0, 0, 0⟩ ⟨0, 0, 0⟩ ⟨0, 0, 25⟩ ⟨0, 0, 0⟩ 0 ⟨0, 0, 0⟩,
            ReadingResult.mk ⟨0, 100, 1000, TargetColorspace.Rec709, LuminanceEotf.Gamma22,
              ⟨1, 1, 1⟩⟩ ⟨0, 0, 0⟩ ⟨0, 0, 0⟩ ⟨0, 0, 25⟩ ⟨0, 0, 0⟩ 0 ⟨0, 0, 0⟩]
        = some 1 ∧
      (ReadingResult.mk ⟨0, 100, 1000, TargetColorspace.Rec709, LuminanceEotf.Gamma22,
          ⟨0.5, 0.5, 0.5⟩⟩ ⟨0, 0, 0⟩ ⟨0, 0, 0⟩ ⟨0, 0, 25⟩ ⟨0, 0, 0⟩ 0 ⟨0, 0, 0⟩).gamma
        = some 2 ∧
      (ReadingResult.mk ⟨0, 100, 1000, TargetColorspace.Rec709, LuminanceEotf.Gamma22,
          ⟨1, 1, 1⟩⟩ ⟨0, 0, 0⟩ ⟨0, 0, 0⟩ ⟨0, 0, 25⟩ ⟨0, 0, 0⟩ 0 ⟨0, 0, 0⟩).gamma
        = none := by
  refine ⟨fun rs => ⟨_, rfl⟩, ?_, rEl_gamma, rIn_gamma⟩
  simp only [ReadingResult.results_average_gamma, List.filterMap_cons, rEl_gamma, rIn_gamma,
    List.filterMap_nil]
  norm_num

/-- Every `fround` value is an integer. -/
lemma fround_int (x : ℝ) : ∃ n : ℤ, fround x = n := by
  unfold fround
  split_ifs
  · exact ⟨⌊x + 1/2⌋, rfl⟩
  · exact ⟨-⌊-x + 1/2⌋, by push_cast; ring⟩

/-- Every `round_colour` output has components that are integer multiples
of `1e-6`. -/
lemma round_colour_micro (v : V3) : isMicroRounded (round_colour v) := by
  obtain ⟨a, ha⟩ := fround_int (v.x * 1e6)
  obtain ⟨b, hb⟩ := fround_int (v.y * 1e6)
  obtain ⟨c, hc⟩ := fround_int (v.z * 1e6)
  exact ⟨⟨a, by simp [round_colour, ha]⟩, ⟨b, by simp [round_colour, hb]⟩,
    ⟨c, by simp [round_colour, hc]⟩⟩

/-- C10: the single recompute entrypoint rounds `xyy`, `lab` and `rgb` to
exact multiples of `1e-6`, stores `cct` unrounded (0 when the estimator is
undefined), the derived fields are a pure function of `(target, xyz)` alone,
and the constructor `from_argyll_results` yields exactly the derived fields
of the entrypoint. -/
theorem derived_fields_recomputed_together :
    (∀ (xyYD65 labD65 : V3 → V3) (conv : TargetColorspace → V3 → V3) (r : ReadingResult),
      isMicroRounded (r.set_or_update_calculated_values xyYD65 labD65 conv).xyy ∧
        isMicroRounded (r.set_or_update_calculated_values xyYD65 labD65 conv).lab ∧
        isMicroRounded (r.set_or_update_calculated_values xyYD65 labD65 conv).rgb ∧
        (r.set_or_update_calculated_values xyYD65 labD65 conv).cct
          = (xyz_to_cct r.xyz).getD 0 ∧
        (xyz_to_cct r.xyz = none →
          (r.set_or_update_calculated_values xyYD65 labD65 conv).cct = 0)) ∧
      (∀ (xyYD65 labD65 : V3 → V3) (conv : TargetColorspace → V3 → V3)
          (r r' : ReadingResult), r.target = r'.target → r.xyz = r'.xyz →
        (r.set_or_update_calculated_values xyYD65 labD65 conv).xyy
            = (r'.set_or_update_calculated_values xyYD65 labD65 conv).xyy ∧
          (r.set_or_update_calculated_values xyYD65 labD65 conv).lab
            = (r'.set_or_update_calculated_values xyYD65 labD65 conv).lab ∧
          (r.set_or_update_calculated_values xyYD65 labD65 conv).cct
            = (r'.set_or_update_calculated_values xyYD65 labD65 conv).cct ∧
          (r.set_or_update_calculated_values xyYD65 labD65 conv).rgb
            = (r'.set_or_update_calculated_values xyYD65 labD65 conv).rgb) ∧
      (∀ (xyYD65 labD65 : V3 → V3) (conv : TargetColorspace → V3 → V3)
          (t : CalibrationTarget) (xyz lab : V3) (r : ReadingResult),
        r.target = t → r.xyz = xyz →
        (ReadingResult.from_argyll_results xyYD65 labD65 conv t xyz lab).xyy
            = (r.set_or_update_calculated_values xyYD65 labD65 conv).xyy ∧
          (ReadingResult.from_argyll_results xyYD65 labD65 conv t xyz lab).lab
            = (r.set_or_update_calculated_values xyYD65 labD65 conv).lab ∧
          (ReadingResult.from_argyll_results xyYD65 labD65 conv t xyz lab).cct
            = (r.set_or_update_calculated_values xyYD65 labD65 conv).cct ∧
          (ReadingResult.from_argyll_results xyYD65 labD65 conv t xyz lab).rgb
            = (r.set_or_update_calculated_values xyYD65 labD65 conv).rgb) := by
  refine ⟨?_, ?_, ?_⟩
  · intro xyYD65 labD65 conv r
    refine ⟨round_colour_micro _, round_colour_micro _, round_colour_micro _, rfl, ?_⟩
    intro hnone
    simp [ReadingResult.set_or_update_calculated_values, hnone]
  · intro xyYD65 labD65 conv r r' ht hxyz
    simp [ReadingResult.set_or_update_calculated_values, ht, hxyz]
  · intro xyYD65 labD65 conv t xyz lab r ht hxyz
    simp [ReadingResult.from_argyll_results, ReadingResult.set_or_update_calculated_values,
      ht, hxyz]

/-- Witness for C10: the entrypoint identity applied at identity transforms
and a concrete record. -/
theorem derived_fields_recomputed_together_witness :
    (ReadingResult.from_argyll_results id id (fun _ v => v)
        ⟨0, 1, 1, TargetColorspace.Rec709, LuminanceEotf.Gamma22, ⟨0, 0, 0⟩⟩
        ⟨0, 0, 0⟩ ⟨0, 0, 0⟩).xyy
        = ((ReadingResult.mk ⟨0, 1, 1, TargetColorspace.Rec709, LuminanceEotf.Gamma22,
            ⟨0, 0, 0⟩⟩ ⟨0, 0, 0⟩ ⟨0, 0, 0⟩ ⟨0, 0, 0⟩ ⟨0, 0, 0⟩ 0
            ⟨0, 0, 0⟩).set_or_update_calculated_values id id (fun _ v => v)).xyy ∧
      (ReadingResult.from_argyll_results id id (fun _ v => v)
          ⟨0, 1, 1, TargetColorspace.Rec709, LuminanceEotf.Gamma22, ⟨0, 0, 0⟩⟩
          ⟨0, 0, 0⟩ ⟨0, 0, 0⟩).lab
        = ((ReadingResult.mk ⟨0, 1, 1, TargetColorspace.Rec709, LuminanceEotf.Gamma22,
            ⟨0, 0, 0⟩⟩ ⟨0, 0, 0⟩ ⟨0, 0, 0⟩ ⟨0, 0, 0⟩ ⟨0, 0, 0⟩ 0
            ⟨0, 0, 0⟩).set_or_update_calculated_values id id (fun _ v => v)).lab ∧
      (ReadingResult.from_argyll_results id id (fun _ v => v)
          ⟨0, 1, 1, TargetColorspace.Rec709, LuminanceEotf.Gamma22, ⟨0, 0, 0⟩⟩
          ⟨0, 0, 0⟩ ⟨0, 0, 0⟩).cct
        = ((ReadingResult.mk ⟨0, 1, 1, TargetColorspace.Rec709, LuminanceEotf.Gamma22,
            ⟨0, 0, 0⟩⟩ ⟨0, 0, 0⟩ ⟨0, 0, 0⟩ ⟨0, 0, 0⟩ ⟨0, 0, 0⟩ 0
            ⟨0, 0, 0⟩).set_or_update_calculated_values id id (fun _ v => v)).cct ∧
      (ReadingResult.from_argyll_results id id (fun _ v => v)
          ⟨0, 1, 1, TargetColorspace.Rec709, LuminanceEotf.Gamma22, ⟨0, 0, 0⟩⟩
          ⟨0, 0, 0⟩ ⟨0, 0, 0⟩).rgb
        = ((ReadingResult.mk ⟨0, 1, 1, TargetColorspace.Rec709, LuminanceEotf.Gamma22,
            ⟨0, 0, 0⟩⟩ ⟨0, 0, 0⟩ ⟨0, 0, 0⟩ ⟨0, 0, 0⟩ ⟨0, 0, 0⟩ 0
            ⟨0, 0, 0⟩).set_or_update_calculated_values id id (fun _ v => v)).rgb :=
  derived_fields_recomputed_together.2.2 id id (fun _ v => v)
    ⟨0, 1, 1, TargetColorspace.Rec709, LuminanceEotf.Gamma22, ⟨0, 0, 0⟩⟩
    ⟨0, 0, 0⟩ ⟨0, 0, 0⟩ _ rfl rfl

end

end PgenClient
